import Mathlib

/-!
Shallow embedding of the TestM employee-management SPA (TypeScript) in Lean 4,
covering the pieces the specification's testable properties are about:

* `src/utils/validation.ts` (field validators and the SSN input formatter),
* `src/models/Employee.ts` (wire/internal data mapper),
* `src/services/ApiService.ts` (response handling of the fetch-all endpoint),
* `src/utils/router.ts` (hash-fragment pattern matching),
* `src/viewmodels/EmployeeListViewModel.ts` and
  `src/viewmodels/EmployeeFormViewModel.ts` (observable state containers).

Modelling conventions:
* JavaScript strings are Lean `String`s; `String.length`/list positions count
  characters (the source only manipulates ASCII, where this agrees with the
  UTF-16 `length` used by JavaScript).
* JS `undefined`-able values are `Option`s; `Partial<T>` becomes a structure of
  `Option` fields.
* The regex character class `\d` is `Char.isDigit` ([0-9]); `\s` and
  `String.prototype.trim` are modelled with `Char.isWhitespace` (the source data
  never contains the exotic Unicode whitespace on which JS and Lean differ).
* `async` methods that await an HTTP call become pure functions taking the
  response (or the typed result of the awaited call) as an extra argument; the
  listener notifications a method fires are returned explicitly as lists of the
  listener tokens invoked, in order.
* JS listener identity (function references compared by `===` in `indexOf`) is
  modelled by `Nat` tokens with decidable equality.
-/

/-! ## Validation utilities (`src/utils/validation.ts`) -/

/-- Result record returned by every field validator: `{ isValid, error? }`. -/
structure ValidationResult where
  isValid : Bool
  error : Option String
deriving DecidableEq, Repr

/-- Model of `String.prototype.trim`: drop leading and trailing whitespace
(`Char.isWhitespace` stands in for the JS whitespace set). -/
def jsTrim (s : String) : String :=
  String.mk (((s.toList.dropWhile Char.isWhitespace).reverse.dropWhile Char.isWhitespace).reverse)

/-- The apostrophe character (U+0027), a member of the name character class. -/
def apostropheChar : Char := Char.ofNat 39

/-- Full-match test for the regex `^\d{3}-\d{2}-\d{4}$` used by `validateSSN`. -/
def isSSNFormat : List Char → Bool
  | [a, b, c, h1, d, e, h2, f, g, i, j] =>
      a.isDigit && b.isDigit && c.isDigit && h1 = '-' &&
      d.isDigit && e.isDigit && h2 = '-' &&
      f.isDigit && g.isDigit && i.isDigit && j.isDigit
  | _ => false

/-- `validateSSN` from `src/utils/validation.ts`: requires a non-empty trimmed
input matching `^\d{3}-\d{2}-\d{4}$` (the test runs on the trimmed string). -/
def validateSSN (ssn : String) : ValidationResult :=
  if ssn = "" ∨ jsTrim ssn = "" then
    { isValid := false, error := some "SSN is required" }
  else if isSSNFormat (jsTrim ssn).toList = false then
    { isValid := false, error := some "SSN must be in format XXX-XX-XXXX" }
  else
    { isValid := true, error := none }

/-- Membership in the regex class `[a-zA-Z\s'-]` used by the name validators. -/
def nameCharOk (c : Char) : Bool :=
  c.isAlpha || c.isWhitespace || c = apostropheChar || c = '-'

/-- Full-match test for `^[a-zA-Z\s'-]+$`. -/
def namePatternTest (s : String) : Bool :=
  s.toList ≠ [] && s.toList.all nameCharOk

/-- `validateFirstName` from `src/utils/validation.ts`. -/
def validateFirstName (firstName : String) : ValidationResult :=
  if firstName = "" ∨ jsTrim firstName = "" then
    { isValid := false, error := some "First name is required" }
  else if (jsTrim firstName).length < 2 then
    { isValid := false, error := some "First name must be at least 2 characters" }
  else if (jsTrim firstName).length > 50 then
    { isValid := false, error := some "First name must be less than 50 characters" }
  else if namePatternTest (jsTrim firstName) = false then
    { isValid := false,
      error := some "First name can only contain letters, spaces, hyphens, and apostrophes" }
  else
    { isValid := true, error := none }

/-- `validateLastName` from `src/utils/validation.ts` (same shape as
`validateFirstName`, with its own messages). -/
def validateLastName (lastName : String) : ValidationResult :=
  if lastName = "" ∨ jsTrim lastName = "" then
    { isValid := false, error := some "Last name is required" }
  else if (jsTrim lastName).length < 2 then
    { isValid := false, error := some "Last name must be at least 2 characters" }
  else if (jsTrim lastName).length > 50 then
    { isValid := false, error := some "Last name must be less than 50 characters" }
  else if namePatternTest (jsTrim lastName) = false then
    { isValid := false,
      error := some "Last name can only contain letters, spaces, hyphens, and apostrophes" }
  else
    { isValid := true, error := none }

/-- Membership in the regex class `[a-zA-Z0-9_-]` used by `validateEmployeeNo`. -/
def employeeNoCharOk (c : Char) : Bool :=
  c.isAlpha || c.isDigit || c = '_' || c = '-'

/-- `validateEmployeeNo` from `src/utils/validation.ts`. -/
def validateEmployeeNo (employeeNo : String) : ValidationResult :=
  if employeeNo = "" ∨ jsTrim employeeNo = "" then
    { isValid := false, error := some "Employee number is required" }
  else if (jsTrim employeeNo).length < 1 then
    { isValid := false, error := some "Employee number cannot be empty" }
  else if (jsTrim employeeNo).length > 20 then
    { isValid := false, error := some "Employee number must be less than 20 characters" }
  else if ((jsTrim employeeNo).toList ≠ [] && (jsTrim employeeNo).toList.all employeeNoCharOk) = false then
    { isValid := false,
      error := some "Employee number can only contain letters, numbers, hyphens, and underscores" }
  else
    { isValid := true, error := none }

/-- The digit subsequence of a string: `value.replace(/\D/g, '')` as a char list. -/
def digitsOf (s : String) : List Char :=
  s.toList.filter (fun c => c.isDigit)

/-- Hyphen-insertion step of `formatSSN`, applied to the extracted digits
(`digits.slice` calls become `List.take`/`List.drop`). -/
def renderSSN (digits : List Char) : String :=
  if digits.length ≤ 3 then
    String.mk digits
  else if digits.length ≤ 5 then
    String.mk (digits.take 3) ++ "-" ++ String.mk (digits.drop 3)
  else
    String.mk (digits.take 3) ++ "-" ++ String.mk ((digits.drop 3).take 2) ++ "-" ++
      String.mk ((digits.drop 5).take 4)

/-- `formatSSN` from `src/utils/validation.ts`: strip non-digits, then format
as `XXX-XX-XXXX` (slicing away any digits beyond the ninth). -/
def formatSSN (value : String) : String :=
  renderSSN (digitsOf value)

/-! ## Data mapper (`src/models/Employee.ts`) -/

/-- Wire representation of an employee (`EmployeeApiResponse`). Optional wire
fields are `Option`s; `Status` is the remote integer status code. -/
structure EmployeeApiResponse where
  PersonID : String
  FirstName : String
  LastName : String
  SSN : String
  EmployeeNo : Option String
  Status : Int
  EmploymentStartDate : Option String
  EmploymentEndDate : Option String
  LastUpdatedBy : Option String
  LastUpdatedDate : Option String
deriving DecidableEq, Repr

/-- Internal employee model (`Employee`). -/
structure Employee where
  id : String
  ssn : String
  firstName : String
  lastName : String
  active : Bool
deriving DecidableEq, Repr

/-- `fromApiResponse`: map a wire employee to the internal model;
`active` is `Status === 0`. -/
def fromApiResponse (apiEmployee : EmployeeApiResponse) : Employee :=
  { id := apiEmployee.PersonID
    ssn := apiEmployee.SSN
    firstName := apiEmployee.FirstName
    lastName := apiEmployee.LastName
    active := apiEmployee.Status = 0 }

/-- `Partial<Employee>` as passed to `toApiRequest` (the source also reads an
`employmentStartDate` property off this value). -/
structure EmployeeDraft where
  id : Option String
  ssn : Option String
  firstName : Option String
  lastName : Option String
  active : Option Bool
  employmentStartDate : Option String
deriving DecidableEq, Repr

/-- `Partial<EmployeeApiResponse>` as built by `toApiRequest`. -/
structure ApiRequestDraft where
  PersonID : Option String
  FirstName : Option String
  LastName : Option String
  SSN : Option String
  Status : Option Int
  EmploymentStartDate : Option String
deriving DecidableEq, Repr

/-- JS falsiness of an optional string: `undefined` and `''` are falsy. -/
def strFalsy : Option String → Bool
  | none => true
  | some s => s = ""

/-- JS `a || b` on optional strings: the first operand if truthy, else the
second. -/
def jsOrStr (a b : Option String) : Option String :=
  if strFalsy a then b else a

/-- `toApiRequest employee existingId nowISO`: build the wire request from a
partial employee. `nowISO` stands for the `new Date().toISOString()` the source
evaluates when `employmentStartDate` is present. -/
def toApiRequest (employee : EmployeeDraft) (existingId : Option String)
    (nowISO : String) : ApiRequestDraft :=
  let pid := jsOrStr employee.id existingId
  { PersonID := if strFalsy pid then none else some ((jsOrStr pid (some "")).getD "")
    FirstName := employee.firstName
    LastName := employee.lastName
    SSN := employee.ssn
    Status := employee.active.map (fun b => if b then (0 : Int) else 1)
    EmploymentStartDate := employee.employmentStartDate.map (fun _ => nowISO) }

/-- View a full `Employee` as the `Partial<Employee>` it is when passed where a
partial is expected (every declared field present). -/
def draftOfEmployee (e : Employee) : EmployeeDraft :=
  { id := some e.id
    ssn := some e.ssn
    firstName := some e.firstName
    lastName := some e.lastName
    active := some e.active
    employmentStartDate := none }

/-! ## API client fetch-all (`src/services/ApiService.ts`) -/

/-- The typed error thrown by the API client (`ApiError`), carrying the
best-effort message and the HTTP status when one was received. -/
structure ApiError where
  message : String
  status : Option Nat
deriving DecidableEq, Repr

/-- Parsed JSON body of a successful fetch-all response: the remote service may
answer with an array of wire employees or with a single wire employee object. -/
inductive ApiData where
  | array (es : List EmployeeApiResponse)
  | single (e : EmployeeApiResponse)
deriving DecidableEq, Repr

/-- An HTTP response to the fetch-all request: its status code, its parsed JSON
body when successful, and (for failure statuses) the error message
`handleResponse` would extract from the body / text / status line. -/
structure FetchAllResponse where
  status : Nat
  body : ApiData
  errMsg : String
deriving DecidableEq, Repr

/-- `Response.ok` of the Fetch API: status in the range 200–299. -/
def responseOk (status : Nat) : Bool :=
  200 ≤ status && status < 300

/-- `handleResponse` on a fetch-all response: non-ok statuses throw an
`ApiError` with the extracted message; ok responses yield the parsed body. -/
def handleResponse (r : FetchAllResponse) : Except ApiError ApiData :=
  if responseOk r.status = false then
    .error { message := r.errMsg, status := some r.status }
  else
    .ok r.body

/-- `getAllEmployees` as implemented in `src/services/ApiService.ts` (lines
80–98): pass the response through `handleResponse`, wrap a non-array body in a
one-element array, and map `fromApiResponse` over it. There is no special case
for status 404. -/
def apiGetAllEmployees (r : FetchAllResponse) : Except ApiError (List Employee) :=
  match handleResponse r with
  | .error e => .error e
  | .ok d =>
      .ok ((match d with
            | .array es => es
            | .single e => [e]).map fromApiResponse)

/-- The revision of `getAllEmployees` embedded in `src/models/Employee.ts`
(lines 167–190): identical, except that a 404 status is intercepted before
`handleResponse` and returned as the empty employee list. -/
def apiGetAllEmployeesAlt (r : FetchAllResponse) : Except ApiError (List Employee) :=
  if r.status = 404 then
    .ok []
  else
    match handleResponse r with
    | .error e => .error e
    | .ok d =>
        .ok ((match d with
              | .array es => es
              | .single e => [e]).map fromApiResponse)

/-! ## Router (`src/utils/router.ts`)

Registered routes are modelled by the list of pattern keys of the `Map`, in
insertion order (a JS `Map` iterates in insertion order). Handlers themselves
carry no information relevant to the spec, so `handleRoute` reports which
pattern's handler is invoked and with which arguments. -/

/-- Outcome of `handleRoute`: the handler of pattern `path` called with no
arguments (exact-match and fallback branches), the handler of pattern `path`
called with a bound-parameter map (pattern-match branch), or no handler at
all. -/
inductive Invocation where
  | noArgs (path : String)
  | withParams (path : String) (params : List (String × String))
  | nothing
deriving DecidableEq, Repr

/-- `String.prototype.split('/')` on the underlying characters: the segments
between the slashes, in order (an empty input yields one empty segment, as in
JS). -/
def splitOnSlashAux : List Char → List Char → List (List Char)
  | [], acc => [acc.reverse]
  | c :: rest, acc =>
      if c = '/' then
        acc.reverse :: splitOnSlashAux rest []
      else
        splitOnSlashAux rest (c :: acc)

/-- `pattern.split('/').filter(part => part !== '')`, segments kept as char
lists. -/
def splitParts (s : String) : List (List Char) :=
  (splitOnSlashAux s.toList []).filter (fun part => part ≠ [])

/-- Segment loop of `matchRoute`, accumulating the `params` record (later
bindings for the same name shadow earlier ones on read; the association list
keeps them in write order). A segment starts with the capture sentinel when its
head character is `:` (`startsWith(':')`), and `slice(1)` is `List.drop 1`. -/
def matchSegs : List (List Char) → List (List Char) → List (String × String) →
    Option (List (String × String))
  | [], [], params => some params
  | patternPart :: ps, pathPart :: qs, params =>
      if patternPart = [] ∨ pathPart = [] then
        none
      else if patternPart.headD ' ' = ':' then
        matchSegs ps qs (params ++ [(String.mk (patternPart.drop 1), String.mk pathPart)])
      else if patternPart ≠ pathPart then
        none
      else
        matchSegs ps qs params
  | _, _, _ => none

/-- `matchRoute pattern path`: `null` (`none`) unless the two split into the
same number of non-empty segments and agree segment-by-segment, capture
segments (leading `:`) binding their name to the path segment. -/
def matchRoute (pattern path : String) : Option (List (String × String)) :=
  let patternParts := splitParts pattern
  let pathParts := splitParts path
  if patternParts.length ≠ pathParts.length then
    none
  else
    matchSegs patternParts pathParts []

/-- The `for (const [routePath, handler] of this.routes.entries())` loop:
first registered pattern whose `matchRoute` succeeds, with its params. -/
def firstMatch : List String → String → Option (String × List (String × String))
  | [], _ => none
  | p :: rest, hash =>
      match matchRoute p hash with
      | some params => some (p, params)
      | none => firstMatch rest hash

/-- `handleRoute`, given the registered patterns in insertion order and the raw
fragment (`window.location.hash.slice(1)`): normalize an empty fragment to
`/`, try an exact `Map` lookup (handler invoked with no arguments), then the
pattern loop (handler invoked with the params record), then the `/` fallback. -/
def handleRoute (routes : List String) (rawHash : String) : Invocation :=
  let hash := if rawHash = "" then "/" else rawHash
  if routes.contains hash then
    Invocation.noArgs hash
  else
    match firstMatch routes hash with
    | some (p, params) => Invocation.withParams p params
    | none =>
        if routes.contains "/" then
          Invocation.noArgs "/"
        else
          Invocation.nothing

/-! ## Observable state containers

Both ViewModels implement subscribe/notify with the identical code:

```
subscribe(listener) { this._listeners.push(listener);
  return () => { const index = this._listeners.indexOf(listener);
                 if (index > -1) this._listeners.splice(index, 1); }; }
notify() { this._listeners.forEach(listener => listener()); }
```

`pushListener` is the `subscribe` body and `removeListener` the body of the
closure `subscribe` returns, acting on the current listener list. -/

/-- `this._listeners.push(listener)`. -/
def pushListener (listeners : List Nat) (listener : Nat) : List Nat :=
  listeners ++ [listener]

/-- The unsubscribe closure: remove the first occurrence of `listener` if
present (`indexOf` / guarded `splice`), otherwise leave the list unchanged. -/
def removeListener (listeners : List Nat) (listener : Nat) : List Nat :=
  match listeners.indexOf? listener with
  | some index => listeners.eraseIdx index
  | none => listeners

/-! ## List container (`src/viewmodels/EmployeeListViewModel.ts`) -/

/-- `EmployeeListState = 'loading' | 'loaded' | 'error'`. -/
inductive EmployeeListState where
  | loading
  | loaded
  | error
deriving DecidableEq, Repr

/-- The list container's private state plus its listener list. -/
structure EmployeeListViewModel where
  employees : List Employee
  state : EmployeeListState
  error : Option String
  listeners : List Nat
deriving DecidableEq, Repr

/-- The field initializers of `EmployeeListViewModel`. -/
def initialListVM : EmployeeListViewModel :=
  { employees := [], state := .loading, error := none, listeners := [] }

/-- `loadEmployees`, parameterized by the fetch-all service function (the
production wiring passes `apiGetAllEmployees`) and the HTTP response: set
loading and notify, then either install the fetched collection with state
`loaded`, or clear the collection, store the error message and set state
`error`; the `finally` block notifies again. Returns the new state and the
notification batches (each the listener list at notification time). -/
def loadEmployeesWith (svc : FetchAllResponse → Except ApiError (List Employee))
    (vm : EmployeeListViewModel) (r : FetchAllResponse) :
    EmployeeListViewModel × List (List Nat) :=
  let vm1 : EmployeeListViewModel := { vm with state := .loading, error := none }
  let vm2 : EmployeeListViewModel :=
    match svc r with
    | .ok es => { vm1 with employees := es, state := .loaded, error := none }
    | .error e => { vm1 with state := .error, error := some e.message, employees := [] }
  (vm2, [vm1.listeners, vm2.listeners])

/-- `loadEmployees` as wired in the source: the singleton `apiService`'s
`getAllEmployees` from `src/services/ApiService.ts`. -/
def loadEmployees (vm : EmployeeListViewModel) (r : FetchAllResponse) :
    EmployeeListViewModel × List (List Nat) :=
  loadEmployeesWith apiGetAllEmployees vm r

/-- `deleteEmployee`, given the result of `apiService.deleteEmployee(id)` and
the response the subsequent reload would receive: on success, reload and return
`true`; on failure, store the error message, notify once and return `false`.
Result: ((new state, returned boolean), notification batches). -/
def deleteEmployee (vm : EmployeeListViewModel)
    (deleteResult : Except ApiError Unit) (reload : FetchAllResponse) :
    (EmployeeListViewModel × Bool) × List (List Nat) :=
  match deleteResult with
  | .ok _ =>
      let (vm', ns) := loadEmployees vm reload
      ((vm', true), ns)
  | .error e =>
      (({ vm with error := some e.message }, false), [vm.listeners])

/-! ## Form container (`src/viewmodels/EmployeeFormViewModel.ts`) -/

/-- `EmployeeFormState = 'idle' | 'loading' | 'success' | 'error'`. -/
inductive EmployeeFormState where
  | idle
  | loading
  | success
  | error
deriving DecidableEq, Repr

/-- `EmployeeFormData`. -/
structure EmployeeFormData where
  firstName : String
  lastName : String
  ssn : String
  employeeNo : String
  active : Bool
deriving DecidableEq, Repr

/-- `EmployeeFormErrors`: each optional key of the error record. -/
structure EmployeeFormErrors where
  firstName : Option String
  lastName : Option String
  ssn : Option String
  employeeNo : Option String
  general : Option String
deriving DecidableEq, Repr

/-- The empty error record `{}`. -/
def emptyFormErrors : EmployeeFormErrors :=
  { firstName := none, lastName := none, ssn := none, employeeNo := none,
    general := none }

/-- `Object.keys(this._errors).length === 0`: no key present. -/
def EmployeeFormErrors.isEmpty (e : EmployeeFormErrors) : Bool :=
  e.firstName.isNone && e.lastName.isNone && e.ssn.isNone &&
    e.employeeNo.isNone && e.general.isNone

/-- The form container's private state plus its listener list. -/
structure EmployeeFormViewModel where
  formData : EmployeeFormData
  errors : EmployeeFormErrors
  state : EmployeeFormState
  isEditMode : Bool
  employeeId : Option String
  listeners : List Nat
deriving DecidableEq, Repr

/-- `validate()`: rebuild the whole error record from the four field
validators (a failing validator contributes its message under its field's
key), notify, and return whether the record ended up empty. -/
def EmployeeFormViewModel.validate (vm : EmployeeFormViewModel) :
    EmployeeFormViewModel × Bool :=
  let firstNameResult := validateFirstName vm.formData.firstName
  let lastNameResult := validateLastName vm.formData.lastName
  let ssnResult := validateSSN vm.formData.ssn
  let employeeNoResult := validateEmployeeNo vm.formData.employeeNo
  let errs : EmployeeFormErrors :=
    { firstName := if firstNameResult.isValid then none else firstNameResult.error
      lastName := if lastNameResult.isValid then none else lastNameResult.error
      ssn := if ssnResult.isValid then none else ssnResult.error
      employeeNo := if employeeNoResult.isValid then none else employeeNoResult.error
      general := none }
  ({ vm with errors := errs }, errs.isEmpty)

/-- The trimmed payload `submit()` sends to `createEmployee` /
`updateEmployee` when validation passes. -/
structure SubmitPayload where
  firstName : String
  lastName : String
  ssn : String
  employeeNo : String
  active : Bool
deriving DecidableEq, Repr

/-- `submit()`, given the result the awaited create/update call would produce:
if `validate()` fails, return `false` at once (no request is sent — the
payload component is `none`); otherwise set loading, send the trimmed payload,
and end in `success` (returning `true`) or in `error` with a general message
(returning `false`). Result: ((new state, returned boolean), payload sent). -/
def EmployeeFormViewModel.submit (vm0 : EmployeeFormViewModel)
    (apiResult : Except ApiError Employee) :
    (EmployeeFormViewModel × Bool) × Option SubmitPayload :=
  let (vm, ok) := vm0.validate
  if ok = false then
    ((vm, false), none)
  else
    let vm1 : EmployeeFormViewModel := { vm with state := .loading, errors := emptyFormErrors }
    let payload : SubmitPayload :=
      { firstName := jsTrim vm1.formData.firstName
        lastName := jsTrim vm1.formData.lastName
        ssn := jsTrim vm1.formData.ssn
        employeeNo := jsTrim vm1.formData.employeeNo
        active := vm1.formData.active }
    match apiResult with
    | .ok _ =>
        (({ vm1 with state := .success, errors := emptyFormErrors }, true), some payload)
    | .error e =>
        let vmErr : EmployeeFormViewModel :=
          { vm1 with
            state := .error
            errors := { emptyFormErrors with general := some e.message } }
        ((vmErr, false), some payload)

/-! ## Supporting lemmas -/

/-- Every character of `digitsOf s` is a digit. -/
theorem digitsOf_all_digits (s : String) : ∀ c ∈ digitsOf s, c.isDigit := by
  intro c hc
  exact List.of_mem_filter hc

/-- Filtering for digits is the identity on an all-digit list. -/
theorem filter_digits_id {l : List Char} (h : ∀ c ∈ l, c.isDigit) :
    l.filter (fun c => c.isDigit) = l :=
  List.filter_eq_self.mpr h

/-- The digits of a rendered SSN are the first nine digits of the input list:
`renderSSN` emits only its input's digits (plus hyphens) and slices away
everything beyond the ninth. -/
theorem digitsOf_renderSSN {d : List Char} (h : ∀ c ∈ d, c.isDigit) :
    digitsOf (renderSSN d) = d.take 9 := by
  have htake : ∀ n, (d.take n).filter (fun c => c.isDigit) = d.take n := by
    intro n
    exact filter_digits_id (fun c hc => h c (List.mem_of_mem_take hc))
  have hdroptake : ∀ m n,
      ((d.drop m).take n).filter (fun c => c.isDigit) = (d.drop m).take n := by
    intro m n
    exact filter_digits_id
      (fun c hc => h c (List.mem_of_mem_drop (List.mem_of_mem_take hc)))
  unfold renderSSN
  split_ifs with h3 h5
  · rw [show digitsOf (String.mk d) = d.filter (fun c => c.isDigit) from rfl,
      filter_digits_id h, List.take_of_length_le (by omega)]
  · unfold digitsOf
    simp only [String.toList, String.data_append]
    rw [List.filter_append, List.filter_append]
    rw [htake 3]
    rw [show (['-'].filter (fun c => c.isDigit)) = [] from rfl]
    rw [filter_digits_id (fun c hc => h c (List.mem_of_mem_drop hc))]
    rw [List.append_nil, List.take_append_drop, List.take_of_length_le (by omega)]
  · unfold digitsOf
    simp only [String.toList, String.data_append]
    rw [List.filter_append, List.filter_append, List.filter_append, List.filter_append]
    rw [htake 3, hdroptake 3 2, hdroptake 5 4]
    rw [show (['-'].filter (fun c => c.isDigit)) = [] from rfl]
    rw [show (9 : Nat) = 5 + 4 from rfl, List.take_add]
    rw [show (5 : Nat) = 3 + 2 from rfl, List.take_add]
    simp

/-- `renderSSN` reads at most the first nine digits of its input. -/
theorem renderSSN_take_nine (d : List Char) : renderSSN (d.take 9) = renderSSN d := by
  by_cases hle : d.length ≤ 9
  · rw [List.take_of_length_le hle]
  · have hlen : (d.take 9).length = 9 := by
      rw [List.length_take]
      omega
    unfold renderSSN
    rw [hlen]
    have h3 : ¬d.length ≤ 3 := by omega
    have h5 : ¬d.length ≤ 5 := by omega
    simp only [if_neg h3, if_neg h5, if_neg (by omega : ¬(9 : Nat) ≤ 3),
      if_neg (by omega : ¬(9 : Nat) ≤ 5)]
    rw [List.take_take, List.drop_take, List.drop_take, List.take_take, List.take_take]
    norm_num

/-- An SSN-shaped character list is non-empty (it has exactly eleven
characters). -/
theorem isSSNFormat_ne_nil {l : List Char} (h : isSSNFormat l = true) : l ≠ [] := by
  intro hnil
  rw [hnil] at h
  exact absurd h (by decide)

/-- The unsubscribe closure on a cons cell: drop the head if it is the sought
listener, otherwise keep it and recurse. -/
theorem removeListener_cons (a : Nat) (rest : List Nat) (l : Nat) :
    removeListener (a :: rest) l =
      if a = l then rest else a :: removeListener rest l := by
  unfold removeListener
  rw [List.indexOf?_cons]
  by_cases h : a = l
  · simp [h]
  · rw [if_neg (by simpa using h), if_neg h]
    cases hidx : rest.indexOf? l
    · simp
    · simp

/-- `indexOf` followed by a guarded `splice` is first-occurrence erasure. -/
theorem removeListener_eq_erase (ls : List Nat) (l : Nat) :
    removeListener ls l = ls.erase l := by
  induction ls with
  | nil => rfl
  | cons a rest ih =>
      rw [removeListener_cons, List.erase_cons, ih]
      by_cases h : a = l
      · simp [h]
      · rw [if_neg h, if_neg (by simpa using h)]

/-- Unsubscribing a listener that is not registered changes nothing. -/
theorem removeListener_of_not_mem {ls : List Nat} {l : Nat} (h : l ∉ ls) :
    removeListener ls l = ls := by
  rw [removeListener_eq_erase, List.erase_of_not_mem h]

/-- Unsubscribing right after subscribing a fresh listener restores the
previous listener list. -/
theorem removeListener_push {ls : List Nat} {l : Nat} (h : l ∉ ls) :
    removeListener (ls ++ [l]) l = ls := by
  rw [removeListener_eq_erase, List.erase_append_right _ h]
  simp

/-- The pattern loop returns the first registered pattern that matches: if the
pattern at index `i` matches and every earlier one does not, the loop yields
pattern `i` with its params. -/
theorem firstMatch_eq_of_first (routes : List String) (F : String) (i : Nat)
    (ps : List (String × String)) (hi : i < routes.length)
    (hmatch : matchRoute (routes.get ⟨i, hi⟩) F = some ps)
    (hbefore : ∀ j, j < i → matchRoute (routes.getD j "") F = none) :
    firstMatch routes F = some (routes.get ⟨i, hi⟩, ps) := by
  induction routes generalizing i with
  | nil => exact absurd hi (by simp)
  | cons p rest ih =>
      cases i with
      | zero =>
          simp only [List.get] at hmatch ⊢
          unfold firstMatch
          rw [hmatch]
      | succ n =>
          have h0 : matchRoute p F = none := by
            have := hbefore 0 (Nat.succ_pos n)
            simpa using this
          unfold firstMatch
          rw [h0]
          have hn : n < rest.length := by
            simpa using hi
          have := ih n hn (by simpa using hmatch)
            (fun j hj => by
              have := hbefore (j + 1) (by omega)
              simpa using this)
          simpa using this

/-! ## Concrete fixtures used by witness theorems -/

/-- A concrete wire employee with the non-zero status code 7. -/
def wSeven : EmployeeApiResponse :=
  { PersonID := "p1", FirstName := "Ada", LastName := "Lovelace", SSN := "123-45-6789",
    EmployeeNo := some "E-1", Status := 7, EmploymentStartDate := none,
    EmploymentEndDate := none, LastUpdatedBy := none, LastUpdatedDate := none }

/-- A concrete list container holding two subscribed listeners. -/
def listVMTwo : EmployeeListViewModel :=
  { employees := [], state := .loading, error := none, listeners := [0, 1] }

/-- A concrete successful fetch-all response carrying an empty employee array. -/
def okArrayResponse : FetchAllResponse :=
  { status := 200, body := .array [], errMsg := "" }

/-- A concrete form container whose draft has the one-character first name
`"A"` and otherwise valid fields. -/
def formVMShortFirst : EmployeeFormViewModel :=
  { formData := { firstName := "A", lastName := "Smith", ssn := "123-45-6789",
                  employeeNo := "E1", active := true }
    errors := emptyFormErrors
    state := .idle
    isEditMode := false
    employeeId := none
    listeners := [0] }

/-- A concrete internal employee, as a create/update call might resolve with. -/
def empOk : Employee :=
  { id := "p1", ssn := "123-45-6789", firstName := "Ada", lastName := "Lovelace",
    active := true }

/-! ## Claim theorems -/

/-- C1: router resolution follows registration order with literals resolvable
before captures. In general (first conjunct), when the fragment has no exact
`Map` entry and the pattern at registration index `i` is the first whose
segment-by-segment match succeeds, that pattern's handler is invoked with its
bound variable map. Concretely: with `/add` registered before `/:id`, the
fragment `add` invokes the `/add` handler with the empty variable map (no
parameters bound), and the fragment `edit/42` invokes the `/edit/:id` handler
with `{id: "42"}`. -/
theorem router_first_registered_match_wins (routes : List String) (F : String)
    (i : Nat) (ps : List (String × String)) (hi : i < routes.length) (hF : F ≠ "")
    (hexact : routes.contains F = false)
    (hmatch : matchRoute (routes.get ⟨i, hi⟩) F = some ps)
    (hbefore : ∀ j, j < i → matchRoute (routes.getD j "") F = none) :
    handleRoute routes F = Invocation.withParams (routes.get ⟨i, hi⟩) ps
    ∧ handleRoute ["/add", "/:id"] "add" = Invocation.withParams "/add" []
    ∧ handleRoute ["/", "/add", "/edit/:id"] "edit/42"
        = Invocation.withParams "/edit/:id" [("id", "42")] := by
  refine ⟨?_, by decide, by decide⟩
  unfold handleRoute
  rw [if_neg hF, if_neg (by rw [hexact]; exact Bool.false_ne_true),
    firstMatch_eq_of_first routes F i ps hi hmatch hbefore]

/-- Witness for C1: the general first-match statement instantiated at the
claim's own scenario — routes `["/add", "/:id"]`, fragment `add`, winning
index 0 — with every hypothesis discharged concretely. -/
theorem router_first_registered_match_wins_witness :
    handleRoute ["/add", "/:id"] "add" = Invocation.withParams "/add" [] :=
  (router_first_registered_match_wins ["/add", "/:id"] "add" 0 [] (by decide)
    (by decide) (by decide) (by decide) (fun j hj => absurd hj (by omega))).1

/-- C2: `subscribe` pushes the listener and returns an unsubscribe closure;
for a listener not already registered (fresh function identity), one call to
the closure removes exactly that listener (restoring the previous list), a
second call is a no-op that removes no other currently-registered listener,
and after unsubscribing no state mutation (here `loadEmployees`, whose
notification batches are its second component) invokes the listener. Both
containers (`EmployeeListViewModel`, `EmployeeFormViewModel`) implement
subscribe/notify with this identical code, embedded as
`pushListener`/`removeListener`. -/
theorem subscribe_unsubscribe_removes_exactly_that_listener
    (vm : EmployeeListViewModel) (l : Nat) (r : FetchAllResponse)
    (hfresh : l ∉ vm.listeners) :
    removeListener (pushListener vm.listeners l) l = vm.listeners
    ∧ removeListener (removeListener (pushListener vm.listeners l) l) l
        = vm.listeners
    ∧ (∀ batch ∈ (loadEmployees
          { vm with listeners := removeListener (pushListener vm.listeners l) l }
          r).2,
        l ∉ batch) := by
  have h1 : removeListener (pushListener vm.listeners l) l = vm.listeners :=
    removeListener_push hfresh
  refine ⟨h1, by rw [h1]; exact removeListener_of_not_mem hfresh, ?_⟩
  intro batch hb
  rw [h1] at hb
  unfold loadEmployees loadEmployeesWith at hb
  cases hsvc : apiGetAllEmployees r
  all_goals
    simp [hsvc] at hb
  all_goals
    rw [hb]
    exact hfresh

/-- Witness for C2: listener token 2 is fresh for `listVMTwo`, and the theorem
applies at that container with the concrete response `okArrayResponse`. -/
theorem subscribe_unsubscribe_removes_exactly_that_listener_witness :
    (2 ∉ listVMTwo.listeners)
    ∧ (removeListener (pushListener listVMTwo.listeners 2) 2 = listVMTwo.listeners
      ∧ removeListener (removeListener (pushListener listVMTwo.listeners 2) 2) 2
          = listVMTwo.listeners
      ∧ (∀ batch ∈ (loadEmployees
            { listVMTwo with
              listeners := removeListener (pushListener listVMTwo.listeners 2) 2 }
            okArrayResponse).2,
          2 ∉ batch)) :=
  ⟨by decide,
   subscribe_unsubscribe_removes_exactly_that_listener listVMTwo 2 okArrayResponse
     (by decide)⟩

/-- C3 (code bug): with `getAllEmployees` as implemented in
`src/services/ApiService.ts` (no 404 special case), a fetch-all request that
completes with HTTP 404 makes `loadEmployees()` end with an empty collection
but state `error` — not the `loaded` state the specification requires. The
revision of `getAllEmployees` embedded in `src/models/Employee.ts` (lines
167–190, `apiGetAllEmployeesAlt`) implements the specified behaviour: the same
404 response yields the empty collection with state `loaded`. -/
theorem loadEmployees_on_404_sets_error_state :
    (loadEmployees initialListVM
        { status := 404, body := .array [], errMsg := "API Error: 404 Not Found" }).1.state
      = .error
    ∧ (loadEmployees initialListVM
        { status := 404, body := .array [], errMsg := "API Error: 404 Not Found" }).1.employees
      = []
    ∧ (loadEmployeesWith apiGetAllEmployeesAlt initialListVM
        { status := 404, body := .array [], errMsg := "API Error: 404 Not Found" }).1.state
      = .loaded
    ∧ (loadEmployeesWith apiGetAllEmployeesAlt initialListVM
        { status := 404, body := .array [], errMsg := "API Error: 404 Not Found" }).1.employees
      = [] := by
  decide

/-- C4: status/active round-trip. `active` is true exactly for wire status 0;
re-encoding an employee read from status 0 yields status 0, and re-encoding an
employee read from any non-zero status (such as 7) yields status 1, so the
original non-zero code is not preserved. -/
theorem status_active_roundtrip (w : EmployeeApiResponse) (nowISO : String) :
    ((fromApiResponse w).active = true ↔ w.Status = 0)
    ∧ (w.Status = 0 →
        (toApiRequest (draftOfEmployee (fromApiResponse w)) none nowISO).Status = some 0)
    ∧ (w.Status ≠ 0 →
        (toApiRequest (draftOfEmployee (fromApiResponse w)) none nowISO).Status = some 1) := by
  refine ⟨by simp [fromApiResponse], ?_, ?_⟩
  · intro h
    simp [toApiRequest, draftOfEmployee, fromApiResponse, h]
  · intro h
    simp [toApiRequest, draftOfEmployee, fromApiResponse, h]

/-- Witness for C4: the round-trip evaluated at status 0 and at status 7; the
status-7 read maps back to 1, which differs from the original 7. -/
theorem status_active_roundtrip_witness :
    ((fromApiResponse { wSeven with Status := 0 }).active = true
      ∧ (toApiRequest (draftOfEmployee (fromApiResponse { wSeven with Status := 0 })) none
          "2026-01-01T00:00:00Z").Status = some 0)
    ∧ ((fromApiResponse wSeven).active = false
      ∧ (toApiRequest (draftOfEmployee (fromApiResponse wSeven)) none
          "2026-01-01T00:00:00Z").Status = some 1
      ∧ some (1 : Int) ≠ some (7 : Int)) :=
  ⟨⟨by decide,
    (status_active_roundtrip { wSeven with Status := 0 } "2026-01-01T00:00:00Z").2.1 rfl⟩,
   ⟨by decide,
    (status_active_roundtrip wSeven "2026-01-01T00:00:00Z").2.2 (by decide),
    by decide⟩⟩

/-- C5: `formatSSN` is idempotent on every string. -/
theorem formatSSN_idempotent (x : String) : formatSSN (formatSSN x) = formatSSN x := by
  show renderSSN (digitsOf (renderSSN (digitsOf x))) = renderSSN (digitsOf x)
  rw [digitsOf_renderSSN (digitsOf_all_digits x), renderSSN_take_nine]

/-- Counterexample to C6 as stated: the input `" 123-45-6789"` (leading space)
does not match `^\d{3}-\d{2}-\d{4}$`, yet `validateSSN` accepts it, because
the validator tests the trimmed input. -/
theorem validateSSN_accepts_untrimmed_input :
    (validateSSN " 123-45-6789").isValid = true
    ∧ isSSNFormat (" 123-45-6789".toList) = false := by
  decide

/-- C6 (amended): `validateSSN` returns valid exactly for the inputs whose
trimmed form matches `^\d{3}-\d{2}-\d{4}$`; every other input gets an invalid
result together with a non-empty error message. -/
theorem validateSSN_valid_iff_trimmed_match (s : String) :
    ((validateSSN s).isValid = isSSNFormat (jsTrim s).toList)
    ∧ ((validateSSN s).isValid = true
        ∨ ∃ m, (validateSSN s).error = some m ∧ m ≠ "") := by
  unfold validateSSN
  split_ifs with h1 h2
  · have htrim : jsTrim s = "" := by
      rcases h1 with h1 | h1
      · rw [h1]; decide
      · exact h1
    constructor
    · rw [htrim]
      decide
    · exact Or.inr ⟨"SSN is required", rfl, by decide⟩
  · exact ⟨h2.symm, Or.inr ⟨"SSN must be in format XXX-XX-XXXX", rfl, by decide⟩⟩
  · constructor
    · simp only [Bool.not_eq_false] at h2
      exact h2.symm
    · exact Or.inl rfl

/-- C7: when the draft fails local validation (here `firstName = "A"`, a
single character), `submit()` returns failure, sends no API request (the
payload component is `none`), leaves the lifecycle state at its prior value,
and populates the `firstName` entry of the error mapping. -/
theorem submit_invalid_draft_no_api_call (vm : EmployeeFormViewModel)
    (apiResult : Except ApiError Employee) (h : vm.formData.firstName = "A") :
    ((vm.submit apiResult).1.2 = false)
    ∧ ((vm.submit apiResult).2 = none)
    ∧ ((vm.submit apiResult).1.1.state = vm.state)
    ∧ ((vm.submit apiResult).1.1.errors.firstName
        = some "First name must be at least 2 characters") := by
  have hfr : validateFirstName vm.formData.firstName =
      { isValid := false, error := some "First name must be at least 2 characters" } := by
    rw [h]
    decide
  unfold EmployeeFormViewModel.submit EmployeeFormViewModel.validate
  rw [hfr]
  simp [EmployeeFormErrors.isEmpty]

/-- Witness for C7: the theorem applied to the concrete form container whose
draft first name is `"A"`, with a create call that would have succeeded. -/
theorem submit_invalid_draft_no_api_call_witness :
    formVMShortFirst.formData.firstName = "A"
    ∧ (((formVMShortFirst.submit (.ok empOk)).1.2 = false)
      ∧ ((formVMShortFirst.submit (.ok empOk)).2 = none)
      ∧ ((formVMShortFirst.submit (.ok empOk)).1.1.state = formVMShortFirst.state)
      ∧ ((formVMShortFirst.submit (.ok empOk)).1.1.errors.firstName
          = some "First name must be at least 2 characters")) :=
  ⟨rfl, submit_invalid_draft_no_api_call formVMShortFirst (.ok empOk) rfl⟩

/-- C8: when the remove operation fails, `deleteEmployee` stores the error
message, fires exactly one notification to its current listeners, returns
failure, and leaves the employees collection (and state) unchanged. -/
theorem deleteEmployee_failure_preserves_collection (vm : EmployeeListViewModel)
    (e : ApiError) (reload : FetchAllResponse) :
    ((deleteEmployee vm (.error e) reload).1.1.employees = vm.employees)
    ∧ ((deleteEmployee vm (.error e) reload).1.1.error = some e.message)
    ∧ ((deleteEmployee vm (.error e) reload).1.1.state = vm.state)
    ∧ ((deleteEmployee vm (.error e) reload).1.2 = false)
    ∧ ((deleteEmployee vm (.error e) reload).2 = [vm.listeners]) :=
  ⟨rfl, rfl, rfl, rfl, rfl⟩

/-- C9: `formatSSN` on the claim's three inputs, plus the general shape fact:
the digits of the output are exactly the first nine digits of the input (all
non-digits are stripped, and digits beyond the ninth are truncated; the
hyphens re-inserted after the third and fifth digits contribute no digits). -/
theorem formatSSN_strips_formats_truncates :
    formatSSN "1234567890" = "123-45-6789"
    ∧ formatSSN "12" = "12"
    ∧ formatSSN "12345" = "123-45"
    ∧ ∀ s : String, digitsOf (formatSSN s) = (digitsOf s).take 9 := by
  refine ⟨by decide, by decide, by decide, ?_⟩
  intro s
  exact digitsOf_renderSSN (digitsOf_all_digits s)

/-- C10: a successful fetch-all response whose JSON body is a single employee
object (not an array) yields the one-element list of the mapped employee —
in both revisions of `getAllEmployees` present in the repository. -/
theorem getAllEmployees_wraps_single_object (w : EmployeeApiResponse)
    (r : FetchAllResponse) (hok : responseOk r.status = true)
    (hbody : r.body = ApiData.single w) :
    apiGetAllEmployees r = .ok [fromApiResponse w]
    ∧ apiGetAllEmployeesAlt r = .ok [fromApiResponse w] := by
  have h404 : r.status ≠ 404 := by
    intro hs
    rw [hs] at hok
    exact absurd hok (by decide)
  constructor
  · unfold apiGetAllEmployees handleResponse
    rw [hok]
    simp [hbody]
  · unfold apiGetAllEmployeesAlt handleResponse
    rw [if_neg h404, hok]
    simp [hbody]

/-- Witness for C10: a 200 response whose body is the single object `wSeven`
maps to the one-element list `[fromApiResponse wSeven]`. -/
theorem getAllEmployees_wraps_single_object_witness :
    responseOk 200 = true
    ∧ (apiGetAllEmployees { status := 200, body := .single wSeven, errMsg := "" }
        = .ok [fromApiResponse wSeven]
      ∧ apiGetAllEmployeesAlt { status := 200, body := .single wSeven, errMsg := "" }
        = .ok [fromApiResponse wSeven]) :=
  ⟨by decide,
   getAllEmployees_wraps_single_object wSeven
     { status := 200, body := .single wSeven, errMsg := "" } (by decide) rfl⟩
